import Mathlib

/-!
Verification of the photo session cache / image proxy of the slideshow
server (`server.js`, second revision) together with its browser-side
service worker (`sw.js`) and admin/slideshow clients.

The JavaScript is shallowly embedded: module-level mutable state
(`photoCache`, the persisted `config.json`) is passed explicitly, the
network is an oracle parameter (an `Option` for a single fallible vendor
call, indexed fetch results for the byte proxy), and timestamps are
naturals (`Date.now()` is a parameter `now`).
-/

namespace PhotoApp

/-- A cached photo descriptor, element of `photoCache.items`
(`{ id, baseUrl, mimeType, filename }` in `server.js`). -/
structure PhotoItem where
  id : String
  baseUrl : String
  mimeType : String
  filename : String
deriving Repr, DecidableEq

/-- The in-memory photo cache singleton (`photoCache` in `server.js`):
a list of descriptors plus the last-refresh timestamp. -/
structure PhotoCache where
  items : List PhotoItem
  fetchedAt : Nat
deriving Repr, DecidableEq

/-- The `mediaFile` sub-object of a raw Picker API media item. -/
structure MediaFile where
  baseUrl : String
  mimeType : Option String
  filename : Option String
deriving Repr, DecidableEq

/-- A raw media item as returned by `fetchAllMediaItems`. -/
structure MediaItem where
  id : String
  mediaFile : Option MediaFile
deriving Repr, DecidableEq

/-- The persisted session config (`config.json`): `mode` is `some "drive"`
for Drive mode and absent for picker mode, `sessionId` the picker session,
`mediaItemIds` the persisted selected ids (absent when the key is missing
from the document). `confirmedAt` is not consulted by any cache logic and
is omitted. -/
structure Config where
  mode : Option String
  sessionId : Option String
  mediaItemIds : Option (List String)
deriving Repr, DecidableEq

/-- JS truthiness test `item.mediaFile && item.mediaFile.baseUrl`:
the item has a resolvable file reference iff `mediaFile` is present and
its `baseUrl` is a non-empty string. -/
def hasFileRef (m : MediaItem) : Bool :=
  match m.mediaFile with
  | some f => f.baseUrl ≠ ""
  | none => false

/-- The `.map` body shared by `refreshCache` and the confirm route:
`{ id, baseUrl, mimeType: ... || "image/jpeg", filename: ... || item.id }`.
For items passing `hasFileRef` the `mediaFile` is present; for totality a
missing `mediaFile` maps to placeholder fields (that case is never hit
after the filter). -/
def toDescriptor (m : MediaItem) : PhotoItem :=
  match m.mediaFile with
  | some f =>
      { id := m.id
        baseUrl := f.baseUrl
        mimeType := f.mimeType.getD "image/jpeg"
        filename := f.filename.getD m.id }
  | none => { id := m.id, baseUrl := "", mimeType := "image/jpeg", filename := m.id }

/-- The allowed-ids membership test of `refreshCache`
(`!allowedIds || allowedIds.has(item.id)`): note that in JS an *empty*
`mediaItemIds` array is truthy, so `some []` admits nothing while `none`
admits everything. -/
def allowedByIds (mediaItemIds : Option (List String)) (m : MediaItem) : Bool :=
  match mediaItemIds with
  | none => true
  | some ids => ids.contains m.id

/-- Drive-mode descriptor built by `refreshCache` from a stored file id. -/
def driveDescriptor (id : String) : PhotoItem :=
  { id := id
    baseUrl := "https://www.googleapis.com/drive/v3/files/" ++ id ++ "?alt=media"
    mimeType := "image/jpeg"
    filename := id }

/-- `refreshCache()` (`server.js`): `config` is `loadConfig()`,
`accessToken` is `getAccessToken()` (which returns `null` when no token
set is stored), `vendorItems` is the outcome of
`fetchAllMediaItems(config.sessionId, accessToken)` — `none` models the
call throwing, in which case the `catch` keeps the stale cache. `now` is
`Date.now()` at the successful assignment. Returns the new `photoCache`;
the JS function itself never throws (every vendor failure is caught). -/
def refreshCache (config : Option Config) (accessToken : Option String)
    (vendorItems : Option (List MediaItem)) (now : Nat)
    (cache : PhotoCache) : PhotoCache :=
  match config with
  | none => { items := [], fetchedAt := 0 }
  | some cfg =>
    match accessToken with
    | none => { items := [], fetchedAt := 0 }
    | some _ =>
      if cfg.mode = some "drive" then
        { items := (cfg.mediaItemIds.getD []).map driveDescriptor
          fetchedAt := now }
      else
        match cfg.sessionId with
        | none => { items := [], fetchedAt := 0 }
        | some _ =>
          match vendorItems with
          | none => cache
          | some mediaItems =>
            { items := ((mediaItems.filter hasFileRef).filter
                  (allowedByIds cfg.mediaItemIds)).map toDescriptor
              fetchedAt := now }

/-- `CACHE_TTL_MS = 50 * 60 * 1000`. -/
def CACHE_TTL_MS : Nat := 50 * 60 * 1000

/-- `isCacheStale()`: `Date.now() - photoCache.fetchedAt > CACHE_TTL_MS`. -/
def isCacheStale (now : Nat) (cache : PhotoCache) : Bool :=
  now - cache.fetchedAt > CACHE_TTL_MS

/-- The refresh guard of `GET /api/photos`:
`if (isCacheStale() && loadConfig()) await refreshCache()`. -/
def listPhotosTriggersRefresh (now : Nat) (cache : PhotoCache)
    (config : Option Config) : Bool :=
  isCacheStale now cache && config.isSome

/-- Response of `POST /api/picker/confirm`. -/
inductive ConfirmResponse where
  | badRequest
  | notAuthenticated
  | vendorError
  | ok (photoCount : Nat)
deriving Repr, DecidableEq

/-- `POST /api/picker/confirm` (`server.js`): given the request body's
`sessionId`, the available access token, the outcome of
`fetchAllMediaItems` (`none` models the vendor call throwing, caught as a
500) and `Date.now()`, returns the HTTP response together with the new
`photoCache` and the new persisted config. The config is written by
`saveConfig({ sessionId, mediaItemIds: mediaItems.map(item => item.id),
confirmedAt })` — note the ids are taken from the *unfiltered* item list —
while the cache keeps only items passing the file-reference filter. -/
def confirmSelection (sessionId : String) (accessToken : Option String)
    (vendorItems : Option (List MediaItem)) (now : Nat)
    (cache : PhotoCache) (config : Option Config) :
    ConfirmResponse × PhotoCache × Option Config :=
  if sessionId = "" then (.badRequest, cache, config)
  else
    match accessToken with
    | none => (.notAuthenticated, cache, config)
    | some _ =>
      match vendorItems with
      | none => (.vendorError, cache, config)
      | some mediaItems =>
        let newConfig : Config :=
          { mode := none
            sessionId := some sessionId
            mediaItemIds := some (mediaItems.map (fun m => m.id)) }
        let newCache : PhotoCache :=
          { items := (mediaItems.filter hasFileRef).map toDescriptor
            fetchedAt := now }
        (.ok newCache.items.length, newCache, some newConfig)

/-- Outcome of one vendor byte fetch (`fetch(imageUrl, ...)` in the photo
proxy): a body on `response.ok`, otherwise the HTTP status. -/
inductive FetchResult where
  | ok (body : String)
  | err (status : Nat)
deriving Repr, DecidableEq

/-- Response of `GET /api/photo/:id`. -/
inductive ResolveResult where
  | notFound
  | notAuthenticated
  | bytes (body : String) (mimeType : String)
  | failedStatus (status : Nat)
deriving Repr, DecidableEq

/-- `GET /api/photo/:id` (`server.js`): `fetch1` is the result of the
first vendor byte fetch on `item.baseUrl`, `refreshedCache` the value of
`photoCache` after the forced `refreshCache()` on 401/403 (that function
never throws, see `refreshCache`), `fetch2` the result of the single
retry fetch on `refreshedItem.baseUrl`. Returns the response, the total
number of vendor byte fetches performed, and the final `photoCache`. -/
def resolvePhoto (photoId : String) (cache : PhotoCache)
    (accessToken : Option String) (fetch1 : FetchResult)
    (refreshedCache : PhotoCache) (fetch2 : FetchResult) :
    ResolveResult × Nat × PhotoCache :=
  match cache.items.find? (fun p => p.id = photoId) with
  | none => (.notFound, 0, cache)
  | some item =>
    match accessToken with
    | none => (.notAuthenticated, 0, cache)
    | some _ =>
      match fetch1 with
      | .ok body => (.bytes body item.mimeType, 1, cache)
      | .err status =>
        if status = 403 ∨ status = 401 then
          match refreshedCache.items.find? (fun p => p.id = photoId) with
          | some refreshedItem =>
            match fetch2 with
            | .ok body => (.bytes body refreshedItem.mimeType, 2, refreshedCache)
            | .err _ => (.failedStatus status, 2, refreshedCache)
          | none => (.failedStatus status, 1, refreshedCache)
        else
          (.failedStatus status, 1, cache)

/-- The browser-side byte cache of `sw.js`: one stored response
(body and content type) per photo id (the request URL is determined by
the id). -/
def SwCache : Type := List (String × String × String)

/-- `caches.match(event.request)` on the photo-byte cache. -/
def swLookup (sw : SwCache) (photoId : String) : Option (String × String) :=
  List.lookup photoId sw

/-- The `fetch` event listener of `sw.js` for `/api/photo/*` requests:
on a cache hit return the cached response without any network activity;
on a miss forward to the server proxy (`resolvePhoto`) and, exactly when
the response is ok, `cache.put` a clone before returning it. Returns the
response, the new browser cache, the number of vendor byte fetches, and
the final server-side `photoCache`. -/
def swResolve (photoId : String) (sw : SwCache) (cache : PhotoCache)
    (accessToken : Option String) (fetch1 : FetchResult)
    (refreshedCache : PhotoCache) (fetch2 : FetchResult) :
    ResolveResult × SwCache × Nat × PhotoCache :=
  match swLookup sw photoId with
  | some (body, mime) => (.bytes body mime, sw, 0, cache)
  | none =>
    let (result, n, cache') :=
      resolvePhoto photoId cache accessToken fetch1 refreshedCache fetch2
    match result with
    | .bytes body mime => (.bytes body mime, (photoId, body, mime) :: sw, n, cache')
    | other => (other, sw, n, cache')

/-- The destructuring swap `[arr[i], arr[j]] = [arr[j], arr[i]]` of
`shuffleArray`, on lists; out-of-range indices leave the list unchanged
(in `shuffleArray` both indices are always in range). -/
def swapList (l : List α) (i j : Nat) : List α :=
  if h : i < l.length ∧ j < l.length then
    (l.set i (l.get ⟨j, h.2⟩)).set j (l.get ⟨i, h.1⟩)
  else l

/-- The loop of `shuffleArray`, counting `i` down from `arr.length - 1`
to `1`; the draw `Math.floor(Math.random() * (i + 1))` at index `i` is
modelled by `rand i % (i + 1)`, which ranges over exactly `0..i`. -/
def fyLoop (rand : Nat → Nat) : Nat → List α → List α
  | 0, l => l
  | i + 1, l => fyLoop rand i (swapList l (i + 1) (rand (i + 1) % (i + 2)))

/-- `shuffleArray(arr)` (`server.js`): in-place Fisher–Yates driven by a
stream of random draws. -/
def shuffleArray (rand : Nat → Nat) (l : List α) : List α :=
  fyLoop rand (l.length - 1) l

/-- Modelled from the spec: the `POST /api/photos/shuffle` route is absent
from the sources (only its admin-page caller exists), so `shuffle(count)`
follows §4.3 of the spec — re-fetch the full pool, apply Fisher–Yates
(`shuffleArray`, which *is* in the sources), then take the first `count`
items when `count > 0` (clamped to the pool size) and keep all items,
only reordered, when `count = 0`. -/
def shufflePhotos (rand : Nat → Nat) (count : Nat)
    (pool : List PhotoItem) : List PhotoItem :=
  let shuffled := shuffleArray rand pool
  if count = 0 then shuffled
  else shuffled.take (min count pool.length)

/-- Modelled from the spec: the `POST /api/photos/restore` route is absent
from the sources (only its slideshow/admin callers exist), so
`restore(snapshot)` follows §4.3 of the spec — apply the client-supplied
snapshot only if the in-memory cache is currently empty, persisting the
restored set; otherwise a no-op. The persisted set is returned alongside
the cache (`persisted` is the stored snapshot/selection document). -/
def restoreSnapshot (snapshot : List PhotoItem) (now : Nat)
    (cache : PhotoCache) (persisted : Option (List PhotoItem)) :
    PhotoCache × Option (List PhotoItem) :=
  if cache.items.isEmpty then
    ({ items := snapshot, fetchedAt := now }, some snapshot)
  else (cache, persisted)

/-! ### Permutation lemmas for the Fisher–Yates embedding -/

theorem set_get_self (l : List α) (i : Nat) (h : i < l.length) :
    l.set i (l.get ⟨i, h⟩) = l := by
  induction l generalizing i with
  | nil => simp at h
  | cons a t ih =>
    cases i with
    | zero => rfl
    | succ m =>
      simp only [List.set_cons_succ, List.cons.injEq, true_and]
      exact ih m (by simpa using h)

theorem cons_set_perm (t : List α) (k : Nat) (hk : k < t.length) (a : α) :
    (t.get ⟨k, hk⟩ :: t.set k a).Perm (a :: t) := by
  induction t generalizing k with
  | nil => simp at hk
  | cons x s ih =>
    cases k with
    | zero => exact List.Perm.swap a x s
    | succ m =>
      have hm : m < s.length := by simpa using hk
      show (s.get ⟨m, hm⟩ :: x :: s.set m a).Perm (a :: x :: s)
      have p1 : (s.get ⟨m, hm⟩ :: x :: s.set m a).Perm
          (x :: s.get ⟨m, hm⟩ :: s.set m a) := List.Perm.swap x _ _
      have p2 : (x :: s.get ⟨m, hm⟩ :: s.set m a).Perm (x :: a :: s) :=
        (ih m hm).cons x
      exact (p1.trans p2).trans (List.Perm.swap a x s)

theorem set_swap_perm_lt (l : List α) (i j : Nat) (hij : i < j)
    (hi : i < l.length) (hj : j < l.length) :
    ((l.set i (l.get ⟨j, hj⟩)).set j (l.get ⟨i, hi⟩)).Perm l := by
  induction l generalizing i j with
  | nil => simp at hj
  | cons a t ih =>
    cases j with
    | zero => omega
    | succ k =>
      have hk : k < t.length := by simpa using hj
      cases i with
      | zero =>
        have : ((a :: t).set 0 ((a :: t).get ⟨k + 1, hj⟩)).set (k + 1)
            ((a :: t).get ⟨0, hi⟩) = t.get ⟨k, hk⟩ :: t.set k a := rfl
        rw [this]
        exact cons_set_perm t k hk a
      | succ m =>
        have hm : m < t.length := by simpa using hi
        have : ((a :: t).set (m + 1) ((a :: t).get ⟨k + 1, hj⟩)).set (k + 1)
            ((a :: t).get ⟨m + 1, hi⟩)
            = a :: ((t.set m (t.get ⟨k, hk⟩)).set k (t.get ⟨m, hm⟩)) := rfl
        rw [this]
        exact (ih m k (by omega) hm hk).cons a

theorem swapList_perm (l : List α) (i j : Nat) : (swapList l i j).Perm l := by
  unfold swapList
  split
  case isTrue h =>
    rcases Nat.lt_trichotomy i j with hij | hij | hij
    · exact set_swap_perm_lt l i j hij h.1 h.2
    · subst hij
      rw [List.set_set, set_get_self]
    · have hcomm : (l.set i (l.get ⟨j, h.2⟩)).set j (l.get ⟨i, h.1⟩)
          = (l.set j (l.get ⟨i, h.1⟩)).set i (l.get ⟨j, h.2⟩) :=
        List.set_comm _ _ l (by omega)
      rw [hcomm]
      exact set_swap_perm_lt l j i hij h.2 h.1
  case isFalse => exact List.Perm.refl l

theorem fyLoop_perm (rand : Nat → Nat) (i : Nat) (l : List α) :
    (fyLoop rand i l).Perm l := by
  induction i generalizing l with
  | zero => exact List.Perm.refl l
  | succ n ih =>
    exact (ih _).trans (swapList_perm l (n + 1) (rand (n + 1) % (n + 2)))

theorem shuffleArray_perm (rand : Nat → Nat) (l : List α) :
    (shuffleArray rand l).Perm l :=
  fyLoop_perm rand (l.length - 1) l

/-! ### Shared helper lemmas -/

/-- In picker mode with a stored session id, a failed vendor media-items
call leaves `photoCache` untouched (the `catch` branch of `refreshCache`). -/
theorem refresh_vendor_failure_eq (cfg : Config) (tok : String) (now : Nat)
    (cache : PhotoCache) (sid : String) (hmode : cfg.mode ≠ some "drive")
    (hsid : cfg.sessionId = some sid) :
    refreshCache (some cfg) (some tok) none now cache = cache := by
  simp [refreshCache, hmode, hsid]

/-- Whenever `swResolve` answers with bytes, those bytes are stored in
the resulting browser cache under the photo id. -/
theorem swResolve_bytes_cached (photoId : String) (sw : SwCache)
    (cache : PhotoCache) (tok : Option String) (f1 : FetchResult)
    (rc : PhotoCache) (f2 : FetchResult) (body mime : String)
    (h : (swResolve photoId sw cache tok f1 rc f2).1 = .bytes body mime) :
    swLookup (swResolve photoId sw cache tok f1 rc f2).2.1 photoId
      = some (body, mime) := by
  unfold swResolve at h ⊢
  cases hsw : swLookup sw photoId with
  | some v =>
    obtain ⟨b, m⟩ := v
    simp only [hsw] at h ⊢
    cases h
    rfl
  | none =>
    simp only [hsw] at h ⊢
    cases hr : (resolvePhoto photoId cache tok f1 rc f2).1 with
    | bytes b m =>
      simp only [hr] at h ⊢
      cases h
      simp [swLookup, List.lookup]
    | notFound => simp [hr] at h
    | notAuthenticated => simp [hr] at h
    | failedStatus s => simp [hr] at h

/-! ### Claim theorems -/

/-- Claim C1, counterexample: `confirm("sess-1")` with the vendor
returning item `"a"` (with a file reference) and item `"b"` (without one)
caches exactly the descriptor of `"a"`, yet persists
`mediaItemIds = ["a", "b"]` — the id `"b"` of the item lacking a file
reference *is* persisted and is not among the cached ids, contradicting
the claim that `selectedIds` contains exactly the ids of the cached
descriptors. -/
theorem C1_confirm_counterexample :
    (confirmSelection "sess-1" (some "tok")
        (some [{ id := "a", mediaFile :=
                  some { baseUrl := "urlA", mimeType := none, filename := none } },
               { id := "b", mediaFile := none }]) 100
        { items := [], fetchedAt := 0 } none).2.1.items.map PhotoItem.id
      = ["a"] ∧
    (confirmSelection "sess-1" (some "tok")
        (some [{ id := "a", mediaFile :=
                  some { baseUrl := "urlA", mimeType := none, filename := none } },
               { id := "b", mediaFile := none }]) 100
        { items := [], fetchedAt := 0 } none).2.2
      = some { mode := none, sessionId := some "sess-1",
               mediaItemIds := some ["a", "b"] } ∧
    ("b" : String) ∉ (["a"] : List String) ∧ ("b" : String) ∈ (["a", "b"] : List String) := by
  refine ⟨rfl, rfl, by decide, by decide⟩

/-- Claim C1, amended: for every successful `confirm(sessionId)` call the
in-memory cache holds exactly one `PhotoDescriptor` per vendor item with
a resolvable file reference, while the persisted config's `mediaItemIds`
holds the ids of *all* fetched items, including those lacking a file
reference. -/
theorem C1_confirm_amended (sessionId tok : String) (ms : List MediaItem)
    (now : Nat) (cache : PhotoCache) (config : Option Config)
    (hs : sessionId ≠ "") :
    (confirmSelection sessionId (some tok) (some ms) now cache config).2.1.items
      = (ms.filter hasFileRef).map toDescriptor ∧
    (confirmSelection sessionId (some tok) (some ms) now cache config).2.2
      = some { mode := none, sessionId := some sessionId,
               mediaItemIds := some (ms.map (fun m => m.id)) } := by
  simp [confirmSelection, hs]

/-- Claim C1, witness for the amended theorem at a concrete input. -/
theorem C1_confirm_amended_witness :
    (confirmSelection "s1" "t" (some [{ id := "a", mediaFile := none }]) 7
        { items := [], fetchedAt := 0 } none).2.1.items
      = ([{ id := "a", mediaFile := none }].filter hasFileRef).map toDescriptor ∧
    (confirmSelection "s1" "t" (some [{ id := "a", mediaFile := none }]) 7
        { items := [], fetchedAt := 0 } none).2.2
      = some { mode := none, sessionId := some "s1",
               mediaItemIds := some ["a"] } :=
  C1_confirm_amended "s1" "t" [{ id := "a", mediaFile := none }] 7
    { items := [], fetchedAt := 0 } none (by decide)

/-- Claim C3, counterexample: a `SessionConfig` exists with a non-empty
persisted selection and the in-memory cache is non-empty, yet with no
access token `refreshCache` resets the cache to empty — it never falls
back to any saved snapshot (no `savedSnapshot` field even exists in the
persisted config), contradicting "resets the cache to empty only when the
snapshot is empty". -/
theorem C3_refresh_no_token_counterexample :
    refreshCache
        (some { mode := none, sessionId := some "sess-1",
                mediaItemIds := some ["a"] })
        none (some [])
        200
        { items := [{ id := "a", baseUrl := "u", mimeType := "image/jpeg",
                      filename := "a" }], fetchedAt := 100 }
      = { items := [], fetchedAt := 0 } ∧
    ({ items := [{ id := "a", baseUrl := "u", mimeType := "image/jpeg",
                   filename := "a" }], fetchedAt := 100 } : PhotoCache).items
      ≠ [] := by
  refine ⟨rfl, by simp⟩

/-- Claim C3, amended: whenever a `SessionConfig` exists but no access
token can be acquired, `refreshCache` unconditionally resets the cache to
empty (`items = []`, `fetchedAt = 0`); there is no snapshot fallback. No
error reaches the caller (the embedding is a total function mirroring the
early `return`). -/
theorem C3_refresh_no_token_amended (cfg : Config)
    (vendorItems : Option (List MediaItem)) (now : Nat) (cache : PhotoCache) :
    refreshCache (some cfg) none vendorItems now cache
      = { items := [], fetchedAt := 0 } := rfl

/-- Claim C4: if the cache is non-empty and the vendor media-items call
fails during a picker-mode refresh, the entire cache (in particular its
`items` sequence) is left exactly as it was, and no error escapes
(`refreshCache` returns normally — the failure is caught). -/
theorem C4_refresh_failure_keeps_items (cfg : Config) (tok : String)
    (now : Nat) (cache : PhotoCache) (sid : String)
    (hmode : cfg.mode ≠ some "drive") (hsid : cfg.sessionId = some sid)
    (hne : cache.items ≠ []) :
    refreshCache (some cfg) (some tok) none now cache = cache ∧
    (refreshCache (some cfg) (some tok) none now cache).items = cache.items := by
  have h := refresh_vendor_failure_eq cfg tok now cache sid hmode hsid
  exact ⟨h, by rw [h]⟩

/-- Claim C4, witness at a concrete input. -/
theorem C4_refresh_failure_keeps_items_witness :
    refreshCache
        (some { mode := none, sessionId := some "s", mediaItemIds := none })
        (some "tok") none 9
        { items := [{ id := "a", baseUrl := "u", mimeType := "m",
                      filename := "f" }], fetchedAt := 3 }
      = { items := [{ id := "a", baseUrl := "u", mimeType := "m",
                      filename := "f" }], fetchedAt := 3 } :=
  (C4_refresh_failure_keeps_items
    { mode := none, sessionId := some "s", mediaItemIds := none } "tok" 9
    { items := [{ id := "a", baseUrl := "u", mimeType := "m",
                  filename := "f" }], fetchedAt := 3 } "s"
    (by simp) rfl (by simp)).1

/-- Claim C2: once `resolve(id)` has succeeded, the bytes sit in the
service-worker byte cache (write-through on every ok response), and any
subsequent `resolve(id)` — whatever the server cache, token, or vendor
would now answer — is served purely from that cache: it performs zero
vendor byte fetches, returns the identical bytes, and leaves both the
browser cache and the server cache untouched. -/
theorem C2_second_resolve_uses_cache (photoId : String) (sw : SwCache)
    (cache : PhotoCache) (tok : Option String) (f1 : FetchResult)
    (rc : PhotoCache) (f2 : FetchResult) (body mime : String)
    (h : (swResolve photoId sw cache tok f1 rc f2).1 = .bytes body mime)
    (cache2 : PhotoCache) (tok2 : Option String) (f1b : FetchResult)
    (rc2 : PhotoCache) (f2b : FetchResult) :
    swResolve photoId (swResolve photoId sw cache tok f1 rc f2).2.1 cache2
        tok2 f1b rc2 f2b
      = (.bytes body mime,
         (swResolve photoId sw cache tok f1 rc f2).2.1, 0, cache2) := by
  have hc := swResolve_bytes_cached photoId sw cache tok f1 rc f2 body mime h
  generalize (swResolve photoId sw cache tok f1 rc f2).2.1 = sw2 at hc ⊢
  simp [swResolve, hc]

/-- Claim C2, witness: a concrete successful first resolve followed by a
second resolve that is answered from the cache alone. -/
theorem C2_second_resolve_uses_cache_witness :
    swResolve "x"
        (swResolve "x" []
          { items := [{ id := "x", baseUrl := "u", mimeType := "m",
                        filename := "f" }], fetchedAt := 0 }
          (some "t") (.ok "B") { items := [], fetchedAt := 0 } (.err 0)).2.1
        { items := [], fetchedAt := 0 } none (.err 500)
        { items := [], fetchedAt := 0 } (.err 500)
      = (.bytes "B" "m",
         (swResolve "x" []
           { items := [{ id := "x", baseUrl := "u", mimeType := "m",
                         filename := "f" }], fetchedAt := 0 }
           (some "t") (.ok "B") { items := [], fetchedAt := 0 } (.err 0)).2.1,
         0, { items := [], fetchedAt := 0 }) :=
  C2_second_resolve_uses_cache "x" []
    { items := [{ id := "x", baseUrl := "u", mimeType := "m",
                  filename := "f" }], fetchedAt := 0 }
    (some "t") (.ok "B") { items := [], fetchedAt := 0 } (.err 0) "B" "m"
    (by decide) { items := [], fetchedAt := 0 } none (.err 500)
    { items := [], fetchedAt := 0 } (.err 500)

/-- Claim C5: for a non-empty pool with pairwise-distinct ids (the cache
invariant), `shuffle(0)` yields a permutation of the pool's ids (the
Fisher–Yates reordering preserves the multiset of ids), and `shuffle(k)`
with `0 < k ≤ pool size` yields exactly `k` items, all drawn from the
pre-shuffle pool, with pairwise-distinct ids. -/
theorem C5_shuffle_properties (rand : Nat → Nat) (pool : List PhotoItem)
    (k : Nat) (hne : pool ≠ []) (hk : k ≤ pool.length)
    (hnd : (pool.map PhotoItem.id).Nodup) :
    ((shufflePhotos rand 0 pool).map PhotoItem.id).Perm
      (pool.map PhotoItem.id) ∧
    (0 < k →
      (shufflePhotos rand k pool).length = k ∧
      (∀ x ∈ shufflePhotos rand k pool, x ∈ pool) ∧
      ((shufflePhotos rand k pool).map PhotoItem.id).Nodup) := by
  have hperm : (shuffleArray rand pool).Perm pool := shuffleArray_perm rand pool
  have hlen : (shuffleArray rand pool).length = pool.length := hperm.length_eq
  constructor
  · simp only [shufflePhotos, if_pos rfl]
    exact hperm.map PhotoItem.id
  · intro hkpos
    have hk0 : ¬(k = 0) := by omega
    have hmin : min k pool.length = k := Nat.min_eq_left hk
    refine ⟨?_, ?_, ?_⟩
    · simp only [shufflePhotos, if_neg hk0, hmin]
      simp [List.length_take, hlen]
      omega
    · intro x hx
      simp only [shufflePhotos, if_neg hk0] at hx
      exact hperm.mem_iff.mp (List.mem_of_mem_take hx)
    · have hshuf : ((shuffleArray rand pool).map PhotoItem.id).Nodup :=
        (hperm.map PhotoItem.id).nodup_iff.mpr hnd
      simp only [shufflePhotos, if_neg hk0]
      rw [List.map_take]
      exact (List.take_sublist _ _).nodup hshuf

/-- Claim C5, witness at a concrete two-element pool. -/
theorem C5_shuffle_properties_witness :
    (((shufflePhotos (fun _ => 0) 0
        [{ id := "a", baseUrl := "u", mimeType := "m", filename := "f" },
         { id := "b", baseUrl := "v", mimeType := "m", filename := "g" }]).map
        PhotoItem.id).Perm
      (([{ id := "a", baseUrl := "u", mimeType := "m", filename := "f" },
         { id := "b", baseUrl := "v", mimeType := "m", filename := "g" }] :
          List PhotoItem).map PhotoItem.id)) ∧
    ((shufflePhotos (fun _ => 0) 1
        [{ id := "a", baseUrl := "u", mimeType := "m", filename := "f" },
         { id := "b", baseUrl := "v", mimeType := "m", filename := "g" }]).length
      = 1) := by
  have h := C5_shuffle_properties (fun _ => 0)
    [{ id := "a", baseUrl := "u", mimeType := "m", filename := "f" },
     { id := "b", baseUrl := "v", mimeType := "m", filename := "g" }] 1
    (by simp) (by simp) (by simp)
  exact ⟨h.1, (h.2 (by omega)).1⟩

/-- Claim C6: `restore(snapshot)` applies and persists the snapshot only
when the in-memory cache is empty; whenever `items` is non-empty before
the call it is a no-op leaving the cache and the persisted state
unchanged. -/
theorem C6_restore_guard (snapshot : List PhotoItem) (now : Nat)
    (cache : PhotoCache) (persisted : Option (List PhotoItem)) :
    (cache.items ≠ [] →
      restoreSnapshot snapshot now cache persisted = (cache, persisted)) ∧
    (cache.items = [] →
      restoreSnapshot snapshot now cache persisted
        = ({ items := snapshot, fetchedAt := now }, some snapshot)) := by
  constructor
  · intro hne
    simp [restoreSnapshot, hne]
  · intro he
    simp [restoreSnapshot, he]

/-- Claim C6, witness: the guard at a concrete non-empty and a concrete
empty cache. -/
theorem C6_restore_guard_witness :
    restoreSnapshot
        [{ id := "s", baseUrl := "u", mimeType := "m", filename := "f" }] 5
        { items := [{ id := "a", baseUrl := "u", mimeType := "m",
                      filename := "f" }], fetchedAt := 1 } none
      = ({ items := [{ id := "a", baseUrl := "u", mimeType := "m",
                       filename := "f" }], fetchedAt := 1 }, none) ∧
    restoreSnapshot
        [{ id := "s", baseUrl := "u", mimeType := "m", filename := "f" }] 5
        { items := [], fetchedAt := 0 } none
      = ({ items := [{ id := "s", baseUrl := "u", mimeType := "m",
                       filename := "f" }], fetchedAt := 5 },
         some [{ id := "s", baseUrl := "u", mimeType := "m",
                 filename := "f" }]) :=
  ⟨(C6_restore_guard _ 5 _ none).1 (by simp),
   (C6_restore_guard _ 5 _ none).2 rfl⟩

/-- Claim C7: when the first vendor byte fetch returns 401 or 403 and the
forced refresh still yields a descriptor for the id, the proxy performs
exactly one retry (two vendor byte fetches in total — and in general the
proxy never performs more than two); if the retry also fails, the status
code the vendor returned (the original 401/403) is surfaced to the
caller. -/
theorem C7_retry_exactly_once (photoId : String) (cache : PhotoCache)
    (tok : String) (status : Nat) (refreshedCache : PhotoCache)
    (fetch2 : FetchResult) (item rItem : PhotoItem)
    (hfound : cache.items.find? (fun p => p.id = photoId) = some item)
    (hrfound : refreshedCache.items.find? (fun p => p.id = photoId)
      = some rItem)
    (hs : status = 401 ∨ status = 403) :
    (resolvePhoto photoId cache (some tok) (.err status)
        refreshedCache fetch2).2.1 = 2 ∧
    (∀ s2, fetch2 = .err s2 →
      (resolvePhoto photoId cache (some tok) (.err status)
          refreshedCache fetch2).1 = .failedStatus status) ∧
    (∀ (cache2 : PhotoCache) (tok2 : Option String) (f1 : FetchResult)
        (rc : PhotoCache) (f2 : FetchResult),
      (resolvePhoto photoId cache2 tok2 f1 rc f2).2.1 ≤ 2) := by
  have hcond : status = 403 ∨ status = 401 :=
    hs.elim (fun h => Or.inr h) (fun h => Or.inl h)
  refine ⟨?_, ?_, ?_⟩
  · cases fetch2 <;> simp [resolvePhoto, hfound, hrfound, hcond]
  · intro s2 h2
    subst h2
    simp [resolvePhoto, hfound, hrfound, hcond]
  · intro cache2 tok2 f1 rc f2
    rcases hf : cache2.items.find? (fun p => p.id = photoId) with _ | it
    · simp [resolvePhoto, hf]
    · cases tok2 with
      | none => simp [resolvePhoto, hf]
      | some t2 =>
        cases f1 with
        | ok b => simp [resolvePhoto, hf]
        | err s =>
          by_cases hc : s = 403 ∨ s = 401
          · rcases hr : rc.items.find? (fun p => p.id = photoId) with _ | ri
            · simp [resolvePhoto, hf, hc, hr]
            · cases f2 <;> simp [resolvePhoto, hf, hc, hr]
          · simp [resolvePhoto, hf, hc]

/-- Claim C7, witness: a concrete 401 first fetch, a refreshed descriptor,
and a failing retry — two fetches, original status surfaced. -/
theorem C7_retry_exactly_once_witness :
    (resolvePhoto "x"
        { items := [{ id := "x", baseUrl := "u1", mimeType := "m",
                      filename := "f" }], fetchedAt := 0 }
        (some "t") (.err 401)
        { items := [{ id := "x", baseUrl := "u2", mimeType := "m",
                      filename := "f" }], fetchedAt := 9 }
        (.err 500)).2.1 = 2 ∧
    (resolvePhoto "x"
        { items := [{ id := "x", baseUrl := "u1", mimeType := "m",
                      filename := "f" }], fetchedAt := 0 }
        (some "t") (.err 401)
        { items := [{ id := "x", baseUrl := "u2", mimeType := "m",
                      filename := "f" }], fetchedAt := 9 }
        (.err 500)).1 = .failedStatus 401 := by
  have h := C7_retry_exactly_once "x"
    { items := [{ id := "x", baseUrl := "u1", mimeType := "m",
                  filename := "f" }], fetchedAt := 0 }
    "t" 401
    { items := [{ id := "x", baseUrl := "u2", mimeType := "m",
                  filename := "f" }], fetchedAt := 9 }
    (.err 500)
    { id := "x", baseUrl := "u1", mimeType := "m", filename := "f" }
    { id := "x", baseUrl := "u2", mimeType := "m", filename := "f" }
    (by decide) (by decide) (Or.inl rfl)
  exact ⟨h.1, h.2.1 500 rfl⟩

/-- Claim C8, counterexample: a refresh that finds no `SessionConfig`
resets `fetchedAt` from 5 to 0 — a strict decrease, contradicting the
claimed monotonicity over all refresh outcomes. -/
theorem C8_fetchedAt_counterexample :
    refreshCache none (some "tok") (some []) 200
        { items := [], fetchedAt := 5 }
      = { items := [], fetchedAt := 0 } ∧
    ¬ ((5 : Nat) ≤
        (refreshCache none (some "tok") (some []) 200
          { items := [], fetchedAt := 5 }).fetchedAt) := by
  refine ⟨rfl, by simp [refreshCache]⟩

/-- Claim C8, amended: assuming the clock is monotone (`now` is at least
the previously recorded `fetchedAt`), every refresh either keeps
`fetchedAt` non-decreasing (successful refresh sets it to `now`, a caught
vendor failure leaves it unchanged) or is one of the reset outcomes —
missing config, missing token, or picker mode without a session id — which
set the whole cache to `{ items := [], fetchedAt := 0 }`, a decrease
whenever `fetchedAt` was positive. -/
theorem C8_fetchedAt_amended (config : Option Config) (tok : Option String)
    (vendorItems : Option (List MediaItem)) (now : Nat) (cache : PhotoCache)
    (hnow : cache.fetchedAt ≤ now) :
    cache.fetchedAt
        ≤ (refreshCache config tok vendorItems now cache).fetchedAt ∨
    refreshCache config tok vendorItems now cache
        = { items := [], fetchedAt := 0 } := by
  cases config with
  | none => exact Or.inr rfl
  | some cfg =>
    cases tok with
    | none => exact Or.inr rfl
    | some t =>
      by_cases hd : cfg.mode = some "drive"
      · left
        simpa [refreshCache, hd] using hnow
      · cases hsid : cfg.sessionId with
        | none => right; simp [refreshCache, hd, hsid]
        | some sid =>
          cases vendorItems with
          | none => left; simp [refreshCache, hd, hsid]
          | some ms => left; simpa [refreshCache, hd, hsid] using hnow

/-- Claim C8, witness for the amended theorem at a concrete successful
drive-mode refresh. -/
theorem C8_fetchedAt_amended_witness :
    (3 : Nat) ≤ (refreshCache
        (some { mode := some "drive", sessionId := none,
                mediaItemIds := some ["d"] })
        (some "tok") none 10
        { items := [], fetchedAt := 3 }).fetchedAt ∨
    refreshCache
        (some { mode := some "drive", sessionId := none,
                mediaItemIds := some ["d"] })
        (some "tok") none 10
        { items := [], fetchedAt := 3 }
      = { items := [], fetchedAt := 0 } :=
  C8_fetchedAt_amended
    (some { mode := some "drive", sessionId := none,
            mediaItemIds := some ["d"] })
    (some "tok") none 10 { items := [], fetchedAt := 3 } (by decide)

/-- Claim C9: the proxy looks the id up in `photoCache.items` before
checking authentication — an id absent from the cache yields 404 for any
token state including none, while an id present in the cache with no
access token yields 401. -/
theorem C9_membership_before_auth (photoId : String) (cache : PhotoCache)
    (f1 : FetchResult) (rc : PhotoCache) (f2 : FetchResult) :
    (photoId ∉ cache.items.map PhotoItem.id →
      ∀ tok, resolvePhoto photoId cache tok f1 rc f2
        = (.notFound, 0, cache)) ∧
    (photoId ∈ cache.items.map PhotoItem.id →
      resolvePhoto photoId cache none f1 rc f2
        = (.notAuthenticated, 0, cache)) := by
  constructor
  · intro hnot tok
    have hfind : cache.items.find? (fun p => p.id = photoId) = none := by
      rw [List.find?_eq_none]
      intro x hx
      simp only [decide_eq_true_eq]
      intro hxeq
      exact hnot (List.mem_map.mpr ⟨x, hx, hxeq⟩)
    simp [resolvePhoto, hfind]
  · intro hmem
    obtain ⟨x, hx, hxid⟩ := List.mem_map.mp hmem
    have hsome : (cache.items.find? (fun p => p.id = photoId)).isSome := by
      rw [List.find?_isSome]
      exact ⟨x, hx, by simp [hxid]⟩
    obtain ⟨item, hitem⟩ := Option.isSome_iff_exists.mp hsome
    simp [resolvePhoto, hitem]

/-- Claim C9, witness: 404 with no token for an absent id, 401 for a
present id with no token, on a concrete one-item cache. -/
theorem C9_membership_before_auth_witness :
    resolvePhoto "zzz"
        { items := [{ id := "a", baseUrl := "u", mimeType := "m",
                      filename := "f" }], fetchedAt := 0 }
        none (.err 500) { items := [], fetchedAt := 0 } (.err 500)
      = (.notFound, 0,
         { items := [{ id := "a", baseUrl := "u", mimeType := "m",
                       filename := "f" }], fetchedAt := 0 }) ∧
    resolvePhoto "a"
        { items := [{ id := "a", baseUrl := "u", mimeType := "m",
                      filename := "f" }], fetchedAt := 0 }
        none (.err 500) { items := [], fetchedAt := 0 } (.err 500)
      = (.notAuthenticated, 0,
         { items := [{ id := "a", baseUrl := "u", mimeType := "m",
                       filename := "f" }], fetchedAt := 0 }) :=
  ⟨(C9_membership_before_auth "zzz"
      { items := [{ id := "a", baseUrl := "u", mimeType := "m",
                    filename := "f" }], fetchedAt := 0 }
      (.err 500) { items := [], fetchedAt := 0 } (.err 500)).1
    (by decide) none,
   (C9_membership_before_auth "a"
      { items := [{ id := "a", baseUrl := "u", mimeType := "m",
                    filename := "f" }], fetchedAt := 0 }
      (.err 500) { items := [], fetchedAt := 0 } (.err 500)).2
    (by decide)⟩

/-- Claim C10: a failed vendor media-items call during a picker-mode
refresh updates no cache field — `items` and `fetchedAt` are exactly as
before — so the cache stays stale under a monotone clock and the
`GET /api/photos` guard triggers another refresh attempt at the next
call rather than waiting out a new TTL window. -/
theorem C10_failure_leaves_stale (cfg : Config) (tok sid : String)
    (cache : PhotoCache) (t t2 : Nat)
    (hmode : cfg.mode ≠ some "drive") (hsid : cfg.sessionId = some sid)
    (hstale : isCacheStale t cache = true) (hle : t ≤ t2) :
    refreshCache (some cfg) (some tok) none t cache = cache ∧
    isCacheStale t2 cache = true ∧
    listPhotosTriggersRefresh t2 cache (some cfg) = true := by
  have heq := refresh_vendor_failure_eq cfg tok t cache sid hmode hsid
  have hstale2 : isCacheStale t2 cache = true := by
    simp only [isCacheStale, decide_eq_true_eq] at hstale ⊢
    omega
  refine ⟨heq, hstale2, ?_⟩
  simp [listPhotosTriggersRefresh, hstale2]

/-- Claim C10, witness: a concrete stale cache, failed refresh, and
re-triggered refresh at a later instant. -/
theorem C10_failure_leaves_stale_witness :
    refreshCache
        (some { mode := none, sessionId := some "s", mediaItemIds := none })
        (some "tok") none 3000001 { items := [], fetchedAt := 0 }
      = { items := [], fetchedAt := 0 } ∧
    isCacheStale 3000002 { items := [], fetchedAt := 0 } = true ∧
    listPhotosTriggersRefresh 3000002 { items := [], fetchedAt := 0 }
        (some { mode := none, sessionId := some "s", mediaItemIds := none })
      = true :=
  C10_failure_leaves_stale
    { mode := none, sessionId := some "s", mediaItemIds := none }
    "tok" "s" { items := [], fetchedAt := 0 } 3000001 3000002
    (by simp) rfl (by decide) (by omega)

end PhotoApp
